import Mathlib

/-
  Verification of the FlaxEngine .NET scripting bridge
  (Source/Engine/Scripting/Runtime/DotNet.cpp).

  Shallow embedding: the managed runtime behind the bootstrap gateway is an
  oracle (a record of functions); the global identity maps and lazy caches are
  explicit state threaded through the embedded operations; fatal crash paths
  (CRASH / LOG(Fatal) / failed ASSERT) are `none` results; machine pointers and
  opaque managed handles are `Nat` with 0 playing nullptr.
-/

namespace FlaxDotNet

/-- MVisibility values used by the wrappers (MClass/MMethod/MField/MProperty). -/
inductive MVisibility where
  | Private
  | PrivateProtected
  | Internal
  | Protected
  | ProtectedInternal
  | Public
  deriving DecidableEq, Repr

/-! Attribute bitmask constants, DotNet.cpp lines 61-148
    (System.Reflection.TypeAttributes / MethodAttributes / FieldAttributes). -/

namespace MTypeAttributes

def VisibilityMask : Nat := 0x00000007
def NotPublic : Nat := 0x00000000
def Public : Nat := 0x00000001
def NestedPublic : Nat := 0x00000002
def NestedPrivate : Nat := 0x00000003
def NestedFamily : Nat := 0x00000004
def NestedAssembly : Nat := 0x00000005
def NestedFamANDAssem : Nat := 0x00000006
def NestedFamORAssem : Nat := 0x00000007
def ClassSemanticsMask : Nat := 0x00000020
def Interface : Nat := 0x00000020
def Abstract : Nat := 0x00000080
def Sealed : Nat := 0x00000100

end MTypeAttributes

namespace MMethodAttributes

def MemberAccessMask : Nat := 0x0007
def PrivateScope : Nat := 0x0000
def Private : Nat := 0x0001
def FamANDAssem : Nat := 0x0002
def Assembly : Nat := 0x0003
def Family : Nat := 0x0004
def FamORAssem : Nat := 0x0005
def Public : Nat := 0x0006
def Static : Nat := 0x0010

end MMethodAttributes

namespace MFieldAttributes

def FieldAccessMask : Nat := 0x0007
def PrivateScope : Nat := 0x0000
def Private : Nat := 0x0001
def FamANDAssem : Nat := 0x0002
def Assembly : Nat := 0x0003
def Family : Nat := 0x0004
def FamORAssem : Nat := 0x0005
def Public : Nat := 0x0006
def Static : Nat := 0x0010

end MFieldAttributes

/-- The visibility switch of MClass::MClass (DotNet.cpp lines 721-743):
    `switch (attributes & MTypeAttributes::VisibilityMask)`.
    The default branch is CRASH, embedded as `none`. -/
def decodeTypeVisibility (attributes : Nat) : Option MVisibility :=
  let v := attributes &&& MTypeAttributes.VisibilityMask
  if v = MTypeAttributes.NotPublic ∨ v = MTypeAttributes.NestedPrivate then
    some MVisibility.Private
  else if v = MTypeAttributes.Public ∨ v = MTypeAttributes.NestedPublic then
    some MVisibility.Public
  else if v = MTypeAttributes.NestedFamily ∨ v = MTypeAttributes.NestedAssembly then
    some MVisibility.Internal
  else if v = MTypeAttributes.NestedFamORAssem then
    some MVisibility.ProtectedInternal
  else if v = MTypeAttributes.NestedFamANDAssem then
    some MVisibility.PrivateProtected
  else
    none

/-- The visibility switch of MMethod::MMethod (DotNet.cpp lines 1182-1204):
    `switch (attributes & MMethodAttributes::MemberAccessMask)`.
    PrivateScope (0) and 7 fall into the CRASH default. -/
def decodeMethodVisibility (attributes : Nat) : Option MVisibility :=
  let v := attributes &&& MMethodAttributes.MemberAccessMask
  if v = MMethodAttributes.Private then some MVisibility.Private
  else if v = MMethodAttributes.FamANDAssem then some MVisibility.PrivateProtected
  else if v = MMethodAttributes.Assembly then some MVisibility.Internal
  else if v = MMethodAttributes.Family then some MVisibility.Protected
  else if v = MMethodAttributes.FamORAssem then some MVisibility.ProtectedInternal
  else if v = MMethodAttributes.Public then some MVisibility.Public
  else none

/-- The visibility switch of MField::MField (DotNet.cpp lines 1091-1113):
    `switch (attributes & MFieldAttributes::FieldAccessMask)`.
    PrivateScope (0) and 7 fall into the CRASH default. -/
def decodeFieldVisibility (attributes : Nat) : Option MVisibility :=
  let v := attributes &&& MFieldAttributes.FieldAccessMask
  if v = MFieldAttributes.Private then some MVisibility.Private
  else if v = MFieldAttributes.FamANDAssem then some MVisibility.PrivateProtected
  else if v = MFieldAttributes.Assembly then some MVisibility.Internal
  else if v = MFieldAttributes.Family then some MVisibility.Protected
  else if v = MFieldAttributes.FamORAssem then some MVisibility.ProtectedInternal
  else if v = MFieldAttributes.Public then some MVisibility.Public
  else none

/-- Native `MClass` wrapper object as constructed by MClass::MClass
    (DotNet.cpp lines 707-760). `assembly` is the owning assembly wrapper
    reference (nullable); the `_isValueType`/`_isEnum` fields are filled from
    two gateway calls made inside the constructor. -/
structure MClass where
  handle : Nat
  name : String
  fullname : String
  namespace_ : String
  assembly : Option Nat
  visibility : MVisibility
  isStatic : Bool
  isSealed : Bool
  isAbstract : Bool
  isInterface : Bool
  isValueType : Bool
  isEnum : Bool
  deriving DecidableEq, Repr

/-- MClass::MClass (DotNet.cpp lines 707-760) minus the `classHandles.Add`
    side effect (performed by the caller model, see `GetOrCreateClass`).
    `none` is the crash path: the `ASSERT(handle != nullptr)` at line 720 or
    the CRASH default of the visibility switch. -/
def MClass.create (parentAssembly : Option Nat) (handle : Nat)
    (name fullname namespace_ : String) (attributes : Nat)
    (isValueType isEnum : Bool) : Option MClass :=
  if handle = 0 then none
  else
    match decodeTypeVisibility attributes with
    | none => none
    | some visibility =>
      let staticClassFlags := MTypeAttributes.Abstract ||| MTypeAttributes.Sealed
      let isStatic : Bool := attributes &&& staticClassFlags == staticClassFlags
      let isSealed : Bool :=
        !isStatic && (attributes &&& MTypeAttributes.Sealed == MTypeAttributes.Sealed)
      let isAbstract : Bool :=
        !isStatic && (attributes &&& MTypeAttributes.Abstract == MTypeAttributes.Abstract)
      let isInterface : Bool :=
        attributes &&& MTypeAttributes.ClassSemanticsMask == MTypeAttributes.Interface
      some { handle, name, fullname, namespace_, assembly := parentAssembly,
             visibility, isStatic, isSealed, isAbstract, isInterface,
             isValueType, isEnum }

/-- Native `MMethod` wrapper as constructed by MMethod::MMethod
    (DotNet.cpp lines 1174-1220). -/
structure MMethod where
  handle : Nat
  paramsCount : Nat
  parentClass : Nat
  name : String
  visibility : MVisibility
  isStatic : Bool
  deriving DecidableEq, Repr

/-- MMethod::MMethod (DotNet.cpp lines 1174-1220); `none` is the CRASH default
    of the member-access switch. -/
def MMethod.create (parentClass : Nat) (name : String) (handle : Nat)
    (paramsCount : Nat) (attributes : Nat) : Option MMethod :=
  match decodeMethodVisibility attributes with
  | none => none
  | some visibility =>
    some { handle, paramsCount, parentClass, name, visibility,
           isStatic := attributes &&& MMethodAttributes.Static == MMethodAttributes.Static }

/-- Native `MField` wrapper as constructed by MField::MField
    (DotNet.cpp lines 1084-1115). -/
structure MField where
  handle : Nat
  type : Nat
  parentClass : Nat
  name : String
  visibility : MVisibility
  isStatic : Bool
  deriving DecidableEq, Repr

/-- MField::MField (DotNet.cpp lines 1084-1115); `none` is the CRASH default
    of the field-access switch. -/
def MField.create (parentClass : Nat) (handle : Nat) (name : String)
    (type : Nat) (attributes : Nat) : Option MField :=
  match decodeFieldVisibility attributes with
  | none => none
  | some visibility =>
    some { handle, type, parentClass, name, visibility,
           isStatic := attributes &&& MFieldAttributes.Static == MFieldAttributes.Static }

/-- Native `MProperty` wrapper as constructed by MProperty::MProperty
    (DotNet.cpp lines 1329-1344). -/
structure MProperty where
  parentClass : Nat
  name : String
  getMethod : Option MMethod
  setMethod : Option MMethod
  deriving DecidableEq, Repr

/-- MProperty::MProperty (DotNet.cpp lines 1329-1344): a non-null getter/setter
    handle synthesizes an accessor `MMethod` named `"get_" + name` /
    `"set_" + name` (each with parameter count 1, as the source passes).
    `none` is a CRASH inside an accessor's MMethod constructor. -/
def MProperty.create (parentClass : Nat) (name : String)
    (getterHandle setterHandle : Nat)
    (getterAttributes setterAttributes : Nat) : Option MProperty :=
  let mkGet : Option (Option MMethod) :=
    if getterHandle ≠ 0 then
      match MMethod.create parentClass ("get_" ++ name) getterHandle 1 getterAttributes with
      | none => none
      | some m => some (some m)
    else some none
  let mkSet : Option (Option MMethod) :=
    if setterHandle ≠ 0 then
      match MMethod.create parentClass ("set_" ++ name) setterHandle 1 setterAttributes with
      | none => none
      | some m => some (some m)
    else some none
  match mkGet with
  | none => none
  | some getMethod =>
    match mkSet with
    | none => none
    | some setMethod => some { parentClass, name, getMethod, setMethod }

/-! Fixed-shape records crossing the native/managed boundary,
    DotNet.cpp lines 206-239. -/

/-- `NativeClassDefinitions` (DotNet.cpp lines 207-214). -/
structure NativeClassDefinitions where
  typeHandle : Nat
  name : String
  fullname : String
  namespace_ : String
  typeAttributes : Nat
  deriving DecidableEq, Repr

/-- `NativeMethodDefinitions` (DotNet.cpp lines 216-222). -/
structure NativeMethodDefinitions where
  name : String
  numParameters : Nat
  handle : Nat
  methodAttributes : Nat
  deriving DecidableEq, Repr

/-- `NativeFieldDefinitions` (DotNet.cpp lines 224-230). -/
structure NativeFieldDefinitions where
  name : String
  fieldHandle : Nat
  fieldType : Nat
  fieldAttributes : Nat
  deriving DecidableEq, Repr

/-- `NativePropertyDefinitions` (DotNet.cpp lines 232-239). -/
structure NativePropertyDefinitions where
  name : String
  getterHandle : Nat
  setterHandle : Nat
  getterAttributes : Nat
  setterAttributes : Nat
  deriving DecidableEq, Repr

/-- The managed side of the bootstrap gateway, as an oracle: one field per
    named entry point the embedded operations call. Each is deterministic in
    its arguments (a fixed managed runtime answering describe/invoke calls).
    `getManagedClassFromType` returns the class descriptor and the owning
    assembly handle (out-parameters at DotNet.cpp line 1431). -/
structure Gateway where
  getManagedClassFromType : Nat → NativeClassDefinitions × Nat
  typeIsValueType : Nat → Bool
  typeIsEnum : Nat → Bool
  getClassMethods : Nat → List NativeMethodDefinitions
  getClassFields : Nat → List NativeFieldDefinitions
  getClassProperties : Nat → List NativePropertyDefinitions
  invokeMethod : Nat → Nat → List Nat → Nat × Option Nat

/-- Global identity-map state of the bridge: `classHandles` and
    `assemblyHandles` (DotNet.cpp lines 161-162). Wrapper objects live in
    `store`; an object reference is an index into it, so reference equality is
    index equality. The maps are association lists with most-recent-first
    lookup (`Dictionary::Add` + `TryGet`). -/
structure ClassRegistry where
  store : List MClass
  classHandles : List (Nat × Nat)
  assemblyHandles : List (Nat × Nat)
  deriving DecidableEq, Repr

/-- The empty registry (process start). -/
def ClassRegistry.empty : ClassRegistry := { store := [], classHandles := [], assemblyHandles := [] }

/-- `GetClass(void* typeHandle)` (DotNet.cpp lines 1414-1419): performs the
    `classHandles.TryGet` lookup into a local, then returns nullptr
    unconditionally — the found wrapper is discarded. -/
def GetClass (s : ClassRegistry) (typeHandle : Nat) : Option Nat :=
  let _klass := s.classHandles.lookup typeHandle
  none

/-- `GetOrCreateClass(void* typeHandle)` (DotNet.cpp lines 1421-1448).
    Returns `some (classRef?, registry)` or `none` for the crash path inside
    the MClass constructor. On a miss the wrapper is built from the gateway's
    describe call and registered in `classHandles` keyed by
    `classInfo.typeHandle` — the handle the describe call returned, which the
    constructor receives — not by the queried `typeHandle`. The re-issued
    describe call at lines 1439-1440 only refills a transient buffer that is
    freed right after, so it has no effect on the modelled state. The
    insertion into the owning assembly's full-name map (line 1436) touches
    only MAssembly state, which no claim observes, and is not modelled. -/
def GetOrCreateClass (g : Gateway) (s : ClassRegistry) (typeHandle : Nat) :
    Option (Option Nat × ClassRegistry) :=
  if typeHandle = 0 then some (none, s)
  else
    match s.classHandles.lookup typeHandle with
    | some ref => some (some ref, s)
    | none =>
      let describeResult := g.getManagedClassFromType typeHandle
      let classInfo := describeResult.1
      let assemblyHandle := describeResult.2
      let assembly := s.assemblyHandles.lookup assemblyHandle
      match MClass.create assembly classInfo.typeHandle classInfo.name
          classInfo.fullname classInfo.namespace_ classInfo.typeAttributes
          (g.typeIsValueType classInfo.typeHandle) (g.typeIsEnum classInfo.typeHandle) with
      | none => none
      | some klass =>
        let ref := s.store.length
        some (some ref,
          { s with store := s.store ++ [klass],
                   classHandles := (classInfo.typeHandle, ref) :: s.classHandles })

/-- State of the memoized call gateway: the `CachedFunctions` name-to-pointer
    map (DotNet.cpp line 158). -/
structure FunctionCacheState where
  cachedFunctions : List (String × Nat)
  deriving DecidableEq, Repr

/-- `GetStaticMethodPointer(methodName)` (DotNet.cpp lines 1581-1591).
    `gfp` is the hostfxr `get_function_pointer` delegate against the fixed
    bootstrap type; `gfp name = none` is a nonzero return code, whose
    LOG(Fatal) aborts the process (`none` overall). The result is
    `some (pointer, state, lookups)` where `lookups` counts the
    cross-boundary `get_function_pointer` calls this invocation performed. -/
def GetStaticMethodPointer (gfp : String → Option Nat) (s : FunctionCacheState)
    (methodName : String) : Option (Nat × FunctionCacheState × Nat) :=
  match s.cachedFunctions.lookup methodName with
  | some fn => some (fn, s, 0)
  | none =>
    match gfp methodName with
    | none => none
    | some fn =>
      some (fn, { cachedFunctions := (methodName, fn) :: s.cachedFunctions }, 1)

/-- Per-class lazily populated member caches: the `_hasCachedMethods` /
    `_hasCachedFields` / `_hasCachedProperties` flags and the backing arrays
    of MClass (populated at DotNet.cpp lines 841-862, 875-896, 920-941). -/
structure MClassCaches where
  hasCachedMethods : Bool
  methods : List MMethod
  hasCachedFields : Bool
  fields : List MField
  hasCachedProperties : Bool
  properties : List MProperty
  deriving DecidableEq, Repr

/-- Fresh caches of a newly constructed MClass (all population flags false,
    DotNet.cpp lines 713-715). -/
def MClassCaches.fresh : MClassCaches :=
  { hasCachedMethods := false, methods := [],
    hasCachedFields := false, fields := [],
    hasCachedProperties := false, properties := [] }

/-- The per-record wrapper construction loop of MClass::GetMethods
    (DotNet.cpp lines 850-857); `none` when some record's attributes hit the
    CRASH default in the MMethod constructor. -/
def buildMethods (parentClass : Nat) (defs : List NativeMethodDefinitions) :
    Option (List MMethod) :=
  defs.mapM fun d => MMethod.create parentClass d.name d.handle d.numParameters d.methodAttributes

/-- The per-record wrapper construction loop of MClass::GetFields
    (DotNet.cpp lines 884-891). -/
def buildFields (parentClass : Nat) (defs : List NativeFieldDefinitions) :
    Option (List MField) :=
  defs.mapM fun d => MField.create parentClass d.fieldHandle d.name d.fieldType d.fieldAttributes

/-- The per-record wrapper construction loop of MClass::GetProperties
    (DotNet.cpp lines 929-936). -/
def buildProperties (parentClass : Nat) (defs : List NativePropertyDefinitions) :
    Option (List MProperty) :=
  defs.mapM fun d =>
    MProperty.create parentClass d.name d.getterHandle d.setterHandle d.getterAttributes d.setterAttributes

/-- `MClass::GetMethods()` (DotNet.cpp lines 841-862): return the cached array
    when `_hasCachedMethods`, otherwise issue one GetClassMethods gateway call,
    build one wrapper per record, set the flag. Result carries the number of
    cross-boundary describe calls performed; `none` is a constructor crash. -/
def MClass.GetMethods (g : Gateway) (classHandle : Nat) (s : MClassCaches) :
    Option (List MMethod × MClassCaches × Nat) :=
  if s.hasCachedMethods then some (s.methods, s, 0)
  else
    match buildMethods classHandle (g.getClassMethods classHandle) with
    | none => none
    | some ms => some (ms, { s with hasCachedMethods := true, methods := ms }, 1)

/-- `MClass::GetFields()` (DotNet.cpp lines 875-896), as `MClass.GetMethods`. -/
def MClass.GetFields (g : Gateway) (classHandle : Nat) (s : MClassCaches) :
    Option (List MField × MClassCaches × Nat) :=
  if s.hasCachedFields then some (s.fields, s, 0)
  else
    match buildFields classHandle (g.getClassFields classHandle) with
    | none => none
    | some fs => some (fs, { s with hasCachedFields := true, fields := fs }, 1)

/-- `MClass::GetProperties()` (DotNet.cpp lines 920-941), as `MClass.GetMethods`. -/
def MClass.GetProperties (g : Gateway) (classHandle : Nat) (s : MClassCaches) :
    Option (List MProperty × MClassCaches × Nat) :=
  if s.hasCachedProperties then some (s.properties, s, 0)
  else
    match buildProperties classHandle (g.getClassProperties classHandle) with
    | none => none
    | some ps => some (ps, { s with hasCachedProperties := true, properties := ps }, 1)

/-- `MMethod::Invoke(instance, params, exception)` (DotNet.cpp lines
    1239-1244): one InvokeMethod gateway call on (instance, _handle, params);
    the managed side returns the result handle and deposits any thrown
    exception into the out slot (`Option Nat` here). -/
def MMethod.Invoke (m : MMethod) (g : Gateway) (instance_ : Nat) (params : List Nat) :
    Nat × Option Nat :=
  g.invokeMethod instance_ m.handle params

/-- `MMethod::InvokeVirtual(instance, params, exception)` (DotNet.cpp lines
    1246-1249): the body is exactly `return Invoke(instance, params, exception)`. -/
def MMethod.InvokeVirtual (m : MMethod) (g : Gateway) (instance_ : Nat) (params : List Nat) :
    Nat × Option Nat :=
  m.Invoke g instance_ params

/-- A managed exception object as the exception marshaler observes it: the
    values its Message / StackTrace / InnerException property getters return
    (each getter is an `MMethod.Invoke` through the gateway; the walked values
    are packaged here as one inductive tree, `none` for a null inner). -/
inductive ManagedException where
  | mk (message : String) (stackTrace : String) (innerException : Option ManagedException)

/-- The native-owned exception record chain built by MException::MException:
    message, stack trace, owned pointer to the next inner record, terminated
    at null (`none`). -/
inductive MException where
  | mk (Message : String) (StackTrace : String) (InnerException : Option MException)

/-- MException::MException (DotNet.cpp lines 1055-1076): copy Message and
    StackTrace, then recursively marshal the inner exception when the
    InnerException getter returned non-null. -/
def MException.create : ManagedException → MException
  | ManagedException.mk msg stack none => MException.mk msg stack none
  | ManagedException.mk msg stack (some inner) =>
      MException.mk msg stack (some (MException.create inner))

/-- MException::~MException (DotNet.cpp lines 1078-1082): deleting a record
    recursively deletes its owned inner chain. The result lists the
    (Message, StackTrace) of every record freed, outermost first. -/
def MException.destroy : MException → List (String × String)
  | MException.mk msg stack none => [(msg, stack)]
  | MException.mk msg stack (some inner) => (msg, stack) :: MException.destroy inner

/-- Number of records in a native exception chain. -/
def MException.chainLength : MException → Nat
  | MException.mk _ _ none => 1
  | MException.mk _ _ (some inner) => 1 + MException.chainLength inner

/-- Modelled from the spec: the managed half of the weak-GC-handle bridge.
    The managed implementations of `NewGCHandleWeak` and of handle resolution
    live in FlaxEngine.CSharp's NativeInterop class, which is not under src/;
    the native side (`MCore::GCHandle::NewWeak`, DotNet.cpp lines 400-404, and
    `MCore::GCHandle::GetTarget`, lines 406-409) only forwards an opaque
    handle value across the boundary. Spec sections 4.6 and 8: a weak handle
    resolves to its referent while the referent is reachable, may resolve to
    null once the referent is no longer reachable, and resolving never
    crashes. `weakTable` maps each issued handle to its referent and to the
    current target slot (cleared to `none` by a collection once the referent
    is unreachable); `live` is the set of reachable objects. -/
structure GCHeapState where
  nextHandle : Nat
  weakTable : List (Nat × Nat × Option Nat)
  live : List Nat
  deriving DecidableEq, Repr

/-- Modelled from the spec: `MCore::GCHandle::NewWeak(obj, trackResurrection)`
    — issue a fresh non-null weak handle whose target slot initially holds the
    (live) referent. -/
def GCHeapState.NewWeak (s : GCHeapState) (obj : Nat) : Nat × GCHeapState :=
  (s.nextHandle + 1,
   { s with nextHandle := s.nextHandle + 1,
            weakTable := (s.nextHandle + 1, obj, some obj) :: s.weakTable })

/-- Result of resolving a GC handle: a (possibly null) target, or a crash.
    The crash constructor exists so "never crashes" is a statable property;
    resolution never produces it. -/
inductive GCResult where
  | ok (target : Option Nat)
  | crash
  deriving DecidableEq, Repr

/-- Modelled from the spec: `MCore::GCHandle::GetTarget(handle)` — resolve a
    weak handle to its current target; an unknown handle resolves to null
    rather than faulting. -/
def GCHeapState.GetTarget (s : GCHeapState) (handle : Nat) : GCResult :=
  match s.weakTable.lookup handle with
  | some (_, target) => GCResult.ok target
  | none => GCResult.ok none

/-- Modelled from the spec: an object becomes unreachable (drops out of the
    live set). Reachability only ever shrinks in this model — nothing
    resurrects an object for the purpose of the weak-handle claim. -/
def GCHeapState.markUnreachable (s : GCHeapState) (obj : Nat) : GCHeapState :=
  { s with live := s.live.filter (· ≠ obj) }

/-- Modelled from the spec: what a collection does to one weak-table entry —
    clear the target slot when the referent is no longer reachable. -/
def collectEntry (live : List Nat) (e : Nat × Nat × Option Nat) : Nat × Nat × Option Nat :=
  if e.2.1 ∈ live then e else (e.1, e.2.1, none)

/-- Modelled from the spec: a garbage collection clears the target slot of
    every weak entry whose referent is no longer reachable. -/
def GCHeapState.collect (s : GCHeapState) : GCHeapState :=
  { s with weakTable := s.weakTable.map (collectEntry s.live) }

/-- Events that can happen to the managed heap after a weak handle is
    created: an object becoming unreachable, a garbage collection, or another
    weak-handle creation. -/
inductive GCStep : GCHeapState → GCHeapState → Prop where
  | markUnreachable (s : GCHeapState) (obj : Nat) : GCStep s (s.markUnreachable obj)
  | collect (s : GCHeapState) : GCStep s s.collect
  | newWeak (s : GCHeapState) (obj : Nat) (h : obj ∈ s.live) : GCStep s (s.NewWeak obj).2

/-- Any number of heap events. -/
def GCReaches : GCHeapState → GCHeapState → Prop := Relation.ReflTransGen GCStep

/-- Handle-issuance sanity of a heap state: every handle in the weak table
    was issued by the `nextHandle` counter. -/
def GCHeapState.Bounded (s : GCHeapState) : Prop :=
  ∀ e ∈ s.weakTable, e.1 ≤ s.nextHandle

/-- Invariant tying a weak handle to its referent: the state is bounded, the
    handle was issued, its table entry names the referent, and the target
    slot either still holds the referent or was cleared with the referent
    unreachable. -/
def WeakHandleInv (handle obj : Nat) (s : GCHeapState) : Prop :=
  s.Bounded ∧ handle ≤ s.nextHandle ∧
  ∃ t, s.weakTable.lookup handle = some (obj, t) ∧
       (t = some obj ∨ (t = none ∧ obj ∉ s.live))

/-! Concrete fixtures used by counterexamples and witnesses. -/

/-- A gateway whose describe call canonicalizes type handle 1 to type
    handle 2 (e.g. a generic instantiation): the returned descriptor's
    `typeHandle` differs from the queried one. -/
def canonGateway : Gateway where
  getManagedClassFromType := fun _ =>
    ({ typeHandle := 2, name := "A", fullname := "N.A", namespace_ := "N",
       typeAttributes := MTypeAttributes.Public }, 0)
  typeIsValueType := fun _ => false
  typeIsEnum := fun _ => false
  getClassMethods := fun _ => []
  getClassFields := fun _ => []
  getClassProperties := fun _ => []
  invokeMethod := fun _ _ _ => (0, none)

/-- A gateway whose describe call returns the queried handle itself, one
    public method/field/property per class. -/
def plainGateway : Gateway where
  getManagedClassFromType := fun h =>
    ({ typeHandle := h, name := "A", fullname := "N.A", namespace_ := "N",
       typeAttributes := MTypeAttributes.Public }, 0)
  typeIsValueType := fun _ => false
  typeIsEnum := fun _ => false
  getClassMethods := fun _ =>
    [{ name := "M", numParameters := 2, handle := 11, methodAttributes := MMethodAttributes.Public }]
  getClassFields := fun _ =>
    [{ name := "F", fieldHandle := 12, fieldType := 3, fieldAttributes := MFieldAttributes.Public }]
  getClassProperties := fun _ =>
    [{ name := "P", getterHandle := 13, setterHandle := 0,
       getterAttributes := MMethodAttributes.Public, setterAttributes := 0 }]
  invokeMethod := fun _ _ _ => (0, none)

/-- The registry after `GetOrCreateClass plainGateway ClassRegistry.empty 1`. -/
def plainRegistry1 : ClassRegistry :=
  { store := [{ handle := 1, name := "A", fullname := "N.A", namespace_ := "N",
                assembly := none, visibility := MVisibility.Public,
                isStatic := false, isSealed := false, isAbstract := false,
                isInterface := false, isValueType := false, isEnum := false }],
    classHandles := [(1, 0)],
    assemblyHandles := [] }

/-- The MClass built from type attributes 0x181 = Public | Abstract | Sealed:
    a public static class. -/
def staticClassFixture : MClass :=
  { handle := 1, name := "A", fullname := "N.A", namespace_ := "N", assembly := none,
    visibility := MVisibility.Public, isStatic := true, isSealed := false,
    isAbstract := false, isInterface := false, isValueType := false, isEnum := false }

/-- A hostfxr get_function_pointer delegate resolving the bootstrap entry
    point "Init" to pointer 7 and nothing else. -/
def bootstrapResolver : String → Option Nat :=
  fun n => if n = "Init" then some 7 else none

/-- The CachedFunctions state after resolving "Init" through
    `bootstrapResolver` once. -/
def resolvedCache : FunctionCacheState := { cachedFunctions := [("Init", 7)] }

/-- The method wrappers `plainGateway` yields for any class. -/
def methodsFixture : List MMethod :=
  [{ handle := 11, paramsCount := 2, parentClass := 1, name := "M",
     visibility := MVisibility.Public, isStatic := false }]

/-- Member caches of class handle 1 after its first GetMethods call against
    `plainGateway`. -/
def cachesAfterMethods : MClassCaches :=
  { MClassCaches.fresh with hasCachedMethods := true, methods := methodsFixture }

/-- The property wrapper built from a descriptor with getter handle 13,
    null setter, public getter attributes. -/
def propFixture : MProperty :=
  { parentClass := 1, name := "P",
    getMethod := some { handle := 13, paramsCount := 1, parentClass := 1, name := "get_P",
                        visibility := MVisibility.Public, isStatic := false },
    setMethod := none }

/-! Theorems. -/

/-- Bitmask helper: a mask below 512 only looks at the low nine bits. -/
lemma and_mask_mod512 (a k : Nat) (hk : 511 &&& k = k) : a % 512 &&& k = a &&& k := by
  have h2 : a &&& 511 = a % 2 ^ 9 := Nat.and_pow_two_sub_one_eq_mod a 9
  have h3 : a &&& 511 &&& k = a &&& k := by rw [Nat.and_assoc, hk]
  rw [← h3, h2]
  norm_num

set_option maxRecDepth 8192 in
/-- Bitmask helper, checked over the low nine bits: the combined mask
    `Abstract ||| Sealed` is matched exactly when both single bits are. -/
lemma and_staticFlags_bounded :
    ∀ m < 512, (m &&& 0x180 = 0x180 ↔ (m &&& 0x80 = 0x80 ∧ m &&& 0x100 = 0x100)) := by
  decide

/-- Bitmask helper: both-bits-set reading of the `staticClassFlags` test. -/
lemma and_staticFlags_iff (a : Nat) :
    (a &&& 0x180 = 0x180) ↔ (a &&& 0x80 = 0x80 ∧ a &&& 0x100 = 0x100) := by
  have h := and_staticFlags_bounded (a % 512) (Nat.mod_lt a (by norm_num))
  rwa [and_mask_mod512 a 0x180 (by decide), and_mask_mod512 a 0x80 (by decide),
       and_mask_mod512 a 0x100 (by decide)] at h

/-- C3: for every attribute bitmask, the visibility sub-mask decodes to
    exactly the documented table: for types, not-public/nested-private ↦
    Private, public/nested-public ↦ Public, nested-family/nested-assembly ↦
    Internal, nested-family-or-assembly ↦ ProtectedInternal,
    nested-family-and-assembly ↦ PrivateProtected, and every value of the
    three-bit sub-mask is in the domain (the type decoder never crashes); for
    members the six-entry table Private ↦ Private, FamANDAssem ↦
    PrivateProtected, Assembly ↦ Internal, Family ↦ Protected, FamORAssem ↦
    ProtectedInternal, Public ↦ Public, the field table agreeing with the
    method table, and the two out-of-domain values (PrivateScope = 0 and 7)
    take the crash path (`none`), never a default. The Class/Method/Field
    constructors carry exactly the decoded visibility and crash when the
    decoder does. -/
theorem visibility_decoding_spec (a : Nat) :
    ((a &&& MTypeAttributes.VisibilityMask = MTypeAttributes.NotPublic ∨
      a &&& MTypeAttributes.VisibilityMask = MTypeAttributes.NestedPrivate) →
      decodeTypeVisibility a = some MVisibility.Private) ∧
    ((a &&& MTypeAttributes.VisibilityMask = MTypeAttributes.Public ∨
      a &&& MTypeAttributes.VisibilityMask = MTypeAttributes.NestedPublic) →
      decodeTypeVisibility a = some MVisibility.Public) ∧
    ((a &&& MTypeAttributes.VisibilityMask = MTypeAttributes.NestedFamily ∨
      a &&& MTypeAttributes.VisibilityMask = MTypeAttributes.NestedAssembly) →
      decodeTypeVisibility a = some MVisibility.Internal) ∧
    (a &&& MTypeAttributes.VisibilityMask = MTypeAttributes.NestedFamORAssem →
      decodeTypeVisibility a = some MVisibility.ProtectedInternal) ∧
    (a &&& MTypeAttributes.VisibilityMask = MTypeAttributes.NestedFamANDAssem →
      decodeTypeVisibility a = some MVisibility.PrivateProtected) ∧
    decodeTypeVisibility a ≠ none ∧
    (a &&& MMethodAttributes.MemberAccessMask = MMethodAttributes.Private →
      decodeMethodVisibility a = some MVisibility.Private) ∧
    (a &&& MMethodAttributes.MemberAccessMask = MMethodAttributes.FamANDAssem →
      decodeMethodVisibility a = some MVisibility.PrivateProtected) ∧
    (a &&& MMethodAttributes.MemberAccessMask = MMethodAttributes.Assembly →
      decodeMethodVisibility a = some MVisibility.Internal) ∧
    (a &&& MMethodAttributes.MemberAccessMask = MMethodAttributes.Family →
      decodeMethodVisibility a = some MVisibility.Protected) ∧
    (a &&& MMethodAttributes.MemberAccessMask = MMethodAttributes.FamORAssem →
      decodeMethodVisibility a = some MVisibility.ProtectedInternal) ∧
    (a &&& MMethodAttributes.MemberAccessMask = MMethodAttributes.Public →
      decodeMethodVisibility a = some MVisibility.Public) ∧
    ((a &&& MMethodAttributes.MemberAccessMask = MMethodAttributes.PrivateScope ∨
      a &&& MMethodAttributes.MemberAccessMask = 7) →
      decodeMethodVisibility a = none ∧ decodeFieldVisibility a = none) ∧
    decodeFieldVisibility a = decodeMethodVisibility a ∧
    (∀ asm h n f ns vt en, h ≠ 0 →
      Option.map MClass.visibility (MClass.create asm h n f ns a vt en) =
        decodeTypeVisibility a) ∧
    (∀ pc nm h k,
      Option.map MMethod.visibility (MMethod.create pc nm h k a) =
        decodeMethodVisibility a) ∧
    (∀ pc h nm t,
      Option.map MField.visibility (MField.create pc h nm t a) =
        decodeFieldVisibility a) := by
  have hle : a &&& (7 : Nat) ≤ 7 := Nat.and_le_right
  refine ⟨?_, ?_, ?_, ?_, ?_, ?_, ?_, ?_, ?_, ?_, ?_, ?_, ?_, ?_, ?_, ?_, ?_⟩
  · rintro (h | h) <;>
      simp [decodeTypeVisibility, MTypeAttributes.VisibilityMask, MTypeAttributes.NotPublic,
        MTypeAttributes.Public, MTypeAttributes.NestedPublic, MTypeAttributes.NestedPrivate,
        MTypeAttributes.NestedFamily, MTypeAttributes.NestedAssembly,
        MTypeAttributes.NestedFamANDAssem, MTypeAttributes.NestedFamORAssem, h] at *
  · rintro (h | h) <;>
      simp [decodeTypeVisibility, MTypeAttributes.VisibilityMask, MTypeAttributes.NotPublic,
        MTypeAttributes.Public, MTypeAttributes.NestedPublic, MTypeAttributes.NestedPrivate,
        MTypeAttributes.NestedFamily, MTypeAttributes.NestedAssembly,
        MTypeAttributes.NestedFamANDAssem, MTypeAttributes.NestedFamORAssem, h] at *
  · rintro (h | h) <;>
      simp [decodeTypeVisibility, MTypeAttributes.VisibilityMask, MTypeAttributes.NotPublic,
        MTypeAttributes.Public, MTypeAttributes.NestedPublic, MTypeAttributes.NestedPrivate,
        MTypeAttributes.NestedFamily, MTypeAttributes.NestedAssembly,
        MTypeAttributes.NestedFamANDAssem, MTypeAttributes.NestedFamORAssem, h] at *
  · intro h
    simp [decodeTypeVisibility, MTypeAttributes.VisibilityMask, MTypeAttributes.NotPublic,
      MTypeAttributes.Public, MTypeAttributes.NestedPublic, MTypeAttributes.NestedPrivate,
      MTypeAttributes.NestedFamily, MTypeAttributes.NestedAssembly,
      MTypeAttributes.NestedFamANDAssem, MTypeAttributes.NestedFamORAssem, h] at *
  · intro h
    simp [decodeTypeVisibility, MTypeAttributes.VisibilityMask, MTypeAttributes.NotPublic,
      MTypeAttributes.Public, MTypeAttributes.NestedPublic, MTypeAttributes.NestedPrivate,
      MTypeAttributes.NestedFamily, MTypeAttributes.NestedAssembly,
      MTypeAttributes.NestedFamANDAssem, MTypeAttributes.NestedFamORAssem, h] at *
  · simp only [decodeTypeVisibility, MTypeAttributes.VisibilityMask, MTypeAttributes.NotPublic,
      MTypeAttributes.Public, MTypeAttributes.NestedPublic, MTypeAttributes.NestedPrivate,
      MTypeAttributes.NestedFamily, MTypeAttributes.NestedAssembly,
      MTypeAttributes.NestedFamANDAssem, MTypeAttributes.NestedFamORAssem]
    have h8 : a &&& 7 = 0 ∨ a &&& 7 = 1 ∨ a &&& 7 = 2 ∨ a &&& 7 = 3 ∨ a &&& 7 = 4 ∨
        a &&& 7 = 5 ∨ a &&& 7 = 6 ∨ a &&& 7 = 7 := by omega
    rcases h8 with h | h | h | h | h | h | h | h <;> simp [h]
  · intro h
    simp only [MMethodAttributes.MemberAccessMask, MMethodAttributes.Private] at h
    simp [decodeMethodVisibility, MMethodAttributes.MemberAccessMask, MMethodAttributes.Private, h]
  · intro h
    simp only [MMethodAttributes.MemberAccessMask, MMethodAttributes.FamANDAssem] at h
    simp [decodeMethodVisibility, MMethodAttributes.MemberAccessMask, MMethodAttributes.Private,
      MMethodAttributes.FamANDAssem, h]
  · intro h
    simp only [MMethodAttributes.MemberAccessMask, MMethodAttributes.Assembly] at h
    simp [decodeMethodVisibility, MMethodAttributes.MemberAccessMask, MMethodAttributes.Private,
      MMethodAttributes.FamANDAssem, MMethodAttributes.Assembly, h]
  · intro h
    simp only [MMethodAttributes.MemberAccessMask, MMethodAttributes.Family] at h
    simp [decodeMethodVisibility, MMethodAttributes.MemberAccessMask, MMethodAttributes.Private,
      MMethodAttributes.FamANDAssem, MMethodAttributes.Assembly, MMethodAttributes.Family, h]
  · intro h
    simp only [MMethodAttributes.MemberAccessMask, MMethodAttributes.FamORAssem] at h
    simp [decodeMethodVisibility, MMethodAttributes.MemberAccessMask, MMethodAttributes.Private,
      MMethodAttributes.FamANDAssem, MMethodAttributes.Assembly, MMethodAttributes.Family,
      MMethodAttributes.FamORAssem, h]
  · intro h
    simp only [MMethodAttributes.MemberAccessMask, MMethodAttributes.Public] at h
    simp [decodeMethodVisibility, MMethodAttributes.MemberAccessMask, MMethodAttributes.Private,
      MMethodAttributes.FamANDAssem, MMethodAttributes.Assembly, MMethodAttributes.Family,
      MMethodAttributes.FamORAssem, MMethodAttributes.Public, h]
  · intro h
    simp only [MMethodAttributes.MemberAccessMask, MMethodAttributes.PrivateScope] at h
    have hv : a &&& 7 = 0 ∨ a &&& 7 = 7 := h
    constructor <;> rcases hv with h0 | h0 <;>
      simp [decodeMethodVisibility, decodeFieldVisibility,
        MMethodAttributes.MemberAccessMask, MMethodAttributes.Private,
        MMethodAttributes.FamANDAssem, MMethodAttributes.Assembly,
        MMethodAttributes.Family, MMethodAttributes.FamORAssem, MMethodAttributes.Public,
        MFieldAttributes.FieldAccessMask, MFieldAttributes.Private,
        MFieldAttributes.FamANDAssem, MFieldAttributes.Assembly, MFieldAttributes.Family,
        MFieldAttributes.FamORAssem, MFieldAttributes.Public, h0]
  · simp [decodeMethodVisibility, decodeFieldVisibility,
      MMethodAttributes.MemberAccessMask, MMethodAttributes.Private,
      MMethodAttributes.FamANDAssem, MMethodAttributes.Assembly,
      MMethodAttributes.Family, MMethodAttributes.FamORAssem, MMethodAttributes.Public,
      MFieldAttributes.FieldAccessMask, MFieldAttributes.Private,
      MFieldAttributes.FamANDAssem, MFieldAttributes.Assembly, MFieldAttributes.Family,
      MFieldAttributes.FamORAssem, MFieldAttributes.Public]
  · intro asm h n f ns vt en hne
    cases hd : decodeTypeVisibility a <;> simp [MClass.create, hd, hne]
  · intro pc nm h k
    cases hd : decodeMethodVisibility a <;> simp [MMethod.create, hd]
  · intro pc h nm t
    cases hd : decodeFieldVisibility a <;> simp [MField.create, hd]

/-- C3 witness: the theorem applied at bitmask 6 — a member mask decoding to
    Public, which for a type mask is NestedFamANDAssem ↦ PrivateProtected. -/
theorem visibility_decoding_spec_witness :
    decodeMethodVisibility 6 = some MVisibility.Public ∧
    decodeTypeVisibility 6 = some MVisibility.PrivateProtected :=
  ⟨((visibility_decoding_spec 6).2.2.2.2.2.2.2.2.2.2.2.1) (by decide),
   ((visibility_decoding_spec 6).2.2.2.2.1) (by decide)⟩

/-- C4: for every type-attribute bitmask, a successfully constructed MClass is
    marked static exactly when both the Abstract and Sealed bits are set
    (`_isStatic = (attributes & (Abstract|Sealed)) == (Abstract|Sealed)`,
    DotNet.cpp lines 745-748); a static class reports `IsSealed = false` and
    `IsAbstract = false`, and a non-static class reports each convenience
    flag exactly when its bit is set. -/
theorem static_class_classification (asm : Option Nat) (h : Nat) (n f ns : String)
    (a : Nat) (vt en : Bool) (c : MClass)
    (hc : MClass.create asm h n f ns a vt en = some c) :
    (c.isStatic = true ↔
      (a &&& MTypeAttributes.Abstract = MTypeAttributes.Abstract ∧
       a &&& MTypeAttributes.Sealed = MTypeAttributes.Sealed)) ∧
    (c.isStatic = true → c.isSealed = false ∧ c.isAbstract = false) ∧
    (c.isStatic = false →
      ((c.isSealed = true ↔ a &&& MTypeAttributes.Sealed = MTypeAttributes.Sealed) ∧
       (c.isAbstract = true ↔ a &&& MTypeAttributes.Abstract = MTypeAttributes.Abstract))) := by
  simp only [MClass.create, MTypeAttributes.Abstract, MTypeAttributes.Sealed] at hc ⊢
  split at hc
  · exact absurd hc (by simp)
  · cases hd : decodeTypeVisibility a with
    | none => rw [hd] at hc; exact absurd hc (by simp)
    | some vis =>
      rw [hd] at hc
      simp only [Option.some.injEq] at hc
      subst hc
      have hmask : (128 : Nat) ||| 256 = 384 := by decide
      refine ⟨?_, ?_, ?_⟩
      · simp only [hmask, beq_iff_eq]
        exact and_staticFlags_iff a
      · intro hs
        simp only [hmask] at hs ⊢
        rw [hs]
        simp
      · intro hs
        simp only [hmask] at hs ⊢
        rw [hs]
        simp [beq_iff_eq]

/-- C4 witness: the theorem applied to the class built from attributes
    0x181 = Public | Abstract | Sealed, a static class whose convenience
    flags are forced false. -/
theorem static_class_classification_witness :
    staticClassFixture.isSealed = false ∧ staticClassFixture.isAbstract = false :=
  (static_class_classification none 1 "A" "N.A" "N" 385 false false staticClassFixture
    (by decide)).2.1 (by decide)

/-- C10: the non-creating identity-map lookup `GetClass(typeHandle)`
    (DotNet.cpp lines 1414-1419) returns null for every registry state and
    type handle — in particular even when the handle is present in
    `classHandles` and `TryGet` succeeds, because the found wrapper is
    discarded and nullptr is returned unconditionally. -/
theorem GetClass_always_null (s : ClassRegistry) (typeHandle : Nat) :
    GetClass s typeHandle = none :=
  rfl

/-- C8: `MMethod::InvokeVirtual` (DotNet.cpp lines 1246-1249) returns exactly
    the same result — result handle and deposited exception slot alike — as
    `MMethod::Invoke` (lines 1239-1244) on the same instance and argument
    array: on this backend virtual invocation is identical to non-virtual
    invocation. -/
theorem invokeVirtual_eq_invoke (m : MMethod) (g : Gateway) (instance_ : Nat)
    (params : List Nat) :
    m.InvokeVirtual g instance_ params = m.Invoke g instance_ params :=
  rfl

/-- C6: a managed exception with exactly two levels of inner exception
    marshals (MException::MException, DotNet.cpp lines 1055-1076) to a native
    chain of exactly two additional nested records — three records in total,
    terminated at null — whose Message and StackTrace match the managed
    values level by level; destroying the outermost record
    (MException::~MException, lines 1078-1082) frees exactly the whole owned
    chain, outermost first. -/
theorem exception_chain_two_levels (msg0 st0 msg1 st1 msg2 st2 : String) :
    MException.create (ManagedException.mk msg0 st0 (some (ManagedException.mk msg1 st1
        (some (ManagedException.mk msg2 st2 none))))) =
      MException.mk msg0 st0 (some (MException.mk msg1 st1
        (some (MException.mk msg2 st2 none)))) ∧
    MException.chainLength (MException.create (ManagedException.mk msg0 st0
        (some (ManagedException.mk msg1 st1 (some (ManagedException.mk msg2 st2 none)))))) = 3 ∧
    MException.destroy (MException.create (ManagedException.mk msg0 st0
        (some (ManagedException.mk msg1 st1 (some (ManagedException.mk msg2 st2 none)))))) =
      [(msg0, st0), (msg1, st1), (msg2, st2)] :=
  ⟨rfl, rfl, rfl⟩

/-- C2: `GetStaticMethodPointer` (DotNet.cpp lines 1581-1591) memoizes by
    name in CachedFunctions: after a successful resolution the name is cached
    with the returned pointer, a second resolution of the same name returns
    the identical pointer with zero cross-boundary `get_function_pointer`
    calls and an unchanged cache, and a first resolution of an uncached name
    performs exactly one cross-boundary call. -/
theorem getStaticMethodPointer_memoized (gfp : String → Option Nat)
    (s : FunctionCacheState) (methodName : String) (p : Nat)
    (s1 : FunctionCacheState) (k : Nat)
    (h1 : GetStaticMethodPointer gfp s methodName = some (p, s1, k)) :
    s1.cachedFunctions.lookup methodName = some p ∧
    GetStaticMethodPointer gfp s1 methodName = some (p, s1, 0) ∧
    (s.cachedFunctions.lookup methodName = none → k = 1) := by
  simp only [GetStaticMethodPointer] at h1 ⊢
  cases hl : s.cachedFunctions.lookup methodName with
  | some fn =>
    rw [hl] at h1
    simp only [Option.some.injEq, Prod.mk.injEq] at h1
    obtain ⟨hp, hs, hk⟩ := h1
    have hlk : s1.cachedFunctions.lookup methodName = some p := by
      rw [← hs, hl, hp]
    refine ⟨hlk, ?_, ?_⟩
    · rw [hlk, ← hs]
    · intro hc
      exact absurd hc (by simp)
  | none =>
    rw [hl] at h1
    cases hg : gfp methodName with
    | none =>
      rw [hg] at h1
      exact absurd h1 (by simp)
    | some fn =>
      rw [hg] at h1
      simp only [Option.some.injEq, Prod.mk.injEq] at h1
      obtain ⟨hp, hs, hk⟩ := h1
      have hlk : s1.cachedFunctions.lookup methodName = some p := by
        rw [← hs, ← hp]
        simp [List.lookup]
      refine ⟨hlk, ?_, fun _ => hk.symm⟩
      rw [hlk, ← hs]

/-- C2 witness: resolving "Init" from the empty cache performs the single
    cross-boundary lookup, and re-resolving it against the resulting cache
    returns the same pointer with no further lookup. -/
theorem getStaticMethodPointer_memoized_witness :
    resolvedCache.cachedFunctions.lookup "Init" = some 7 ∧
    GetStaticMethodPointer bootstrapResolver resolvedCache "Init" = some (7, resolvedCache, 0) :=
  ⟨(getStaticMethodPointer_memoized bootstrapResolver { cachedFunctions := [] } "Init" 7
      resolvedCache 1 (by decide)).1,
   (getStaticMethodPointer_memoized bootstrapResolver { cachedFunctions := [] } "Init" 7
      resolvedCache 1 (by decide)).2.1⟩

/-- C5: each member collection is a populate-once cache (DotNet.cpp lines
    841-862, 875-896, 920-941): whenever GetMethods/GetFields/GetProperties
    returns, the corresponding `_hasCached*` flag is set in the resulting
    state, and calling the same accessor again on that state returns the same
    cached sequence with zero further cross-boundary describe calls and an
    unchanged state. -/
theorem member_caches_populate_once (g : Gateway) (ch : Nat) (s : MClassCaches) :
    (∀ ms s1 k, MClass.GetMethods g ch s = some (ms, s1, k) →
      s1.hasCachedMethods = true ∧ MClass.GetMethods g ch s1 = some (ms, s1, 0)) ∧
    (∀ fs s1 k, MClass.GetFields g ch s = some (fs, s1, k) →
      s1.hasCachedFields = true ∧ MClass.GetFields g ch s1 = some (fs, s1, 0)) ∧
    (∀ ps s1 k, MClass.GetProperties g ch s = some (ps, s1, k) →
      s1.hasCachedProperties = true ∧ MClass.GetProperties g ch s1 = some (ps, s1, 0)) := by
  refine ⟨?_, ?_, ?_⟩
  · intro ms s1 k h
    simp only [MClass.GetMethods] at h ⊢
    by_cases hflag : s.hasCachedMethods
    · rw [if_pos hflag] at h
      simp only [Option.some.injEq, Prod.mk.injEq] at h
      obtain ⟨hm, hs, hk⟩ := h
      subst hm
      subst hs
      refine ⟨hflag, ?_⟩
      rw [if_pos hflag]
    · rw [if_neg hflag] at h
      cases hb : buildMethods ch (g.getClassMethods ch) with
      | none => rw [hb] at h; exact absurd h (by simp)
      | some built =>
        rw [hb] at h
        simp only [Option.some.injEq, Prod.mk.injEq] at h
        obtain ⟨hm, hs, hk⟩ := h
        subst hm
        subst hs
        exact ⟨rfl, by rw [if_pos rfl]⟩
  · intro fs s1 k h
    simp only [MClass.GetFields] at h ⊢
    by_cases hflag : s.hasCachedFields
    · rw [if_pos hflag] at h
      simp only [Option.some.injEq, Prod.mk.injEq] at h
      obtain ⟨hm, hs, hk⟩ := h
      subst hm
      subst hs
      refine ⟨hflag, ?_⟩
      rw [if_pos hflag]
    · rw [if_neg hflag] at h
      cases hb : buildFields ch (g.getClassFields ch) with
      | none => rw [hb] at h; exact absurd h (by simp)
      | some built =>
        rw [hb] at h
        simp only [Option.some.injEq, Prod.mk.injEq] at h
        obtain ⟨hm, hs, hk⟩ := h
        subst hm
        subst hs
        exact ⟨rfl, by rw [if_pos rfl]⟩
  · intro ps s1 k h
    simp only [MClass.GetProperties] at h ⊢
    by_cases hflag : s.hasCachedProperties
    · rw [if_pos hflag] at h
      simp only [Option.some.injEq, Prod.mk.injEq] at h
      obtain ⟨hm, hs, hk⟩ := h
      subst hm
      subst hs
      refine ⟨hflag, ?_⟩
      rw [if_pos hflag]
    · rw [if_neg hflag] at h
      cases hb : buildProperties ch (g.getClassProperties ch) with
      | none => rw [hb] at h; exact absurd h (by simp)
      | some built =>
        rw [hb] at h
        simp only [Option.some.injEq, Prod.mk.injEq] at h
        obtain ⟨hm, hs, hk⟩ := h
        subst hm
        subst hs
        exact ⟨rfl, by rw [if_pos rfl]⟩

/-- C5 witness: after class handle 1 populates its method cache from
    `plainGateway` (one describe call), the flag is set and a repeated
    GetMethods returns the cached wrappers with zero describe calls. -/
theorem member_caches_populate_once_witness :
    cachesAfterMethods.hasCachedMethods = true ∧
    MClass.GetMethods plainGateway 1 cachesAfterMethods =
      some (methodsFixture, cachesAfterMethods, 0) :=
  (member_caches_populate_once plainGateway 1 MClassCaches.fresh).1
    methodsFixture cachesAfterMethods 1 (by decide)

/-- Helper: the MMethod constructor stores the name it is given. -/
lemma MMethod.create_name (pc : Nat) (nm : String) (h k a : Nat) (m : MMethod)
    (hm : MMethod.create pc nm h k a = some m) : m.name = nm := by
  simp only [MMethod.create] at hm
  cases hd : decodeMethodVisibility a with
  | none => rw [hd] at hm; exact absurd hm (by simp)
  | some vis =>
    rw [hd] at hm
    simp only [Option.some.injEq] at hm
    subst hm
    rfl

/-- C7: MProperty::MProperty (DotNet.cpp lines 1329-1344): a non-null getter
    handle yields a non-null get-accessor method named "get_" + property
    name and a null getter handle yields a null get-accessor; symmetrically
    for the setter with "set_" + property name. In particular a descriptor
    with non-null getter and null setter has a get-accessor named
    "get_" + name and a null set-accessor. -/
theorem property_accessor_synthesis (pc : Nat) (name : String) (gh sh ga sa : Nat)
    (p : MProperty) (hp : MProperty.create pc name gh sh ga sa = some p) :
    (gh ≠ 0 → ∃ m, p.getMethod = some m ∧ m.name = "get_" ++ name) ∧
    (gh = 0 → p.getMethod = none) ∧
    (sh ≠ 0 → ∃ m, p.setMethod = some m ∧ m.name = "set_" ++ name) ∧
    (sh = 0 → p.setMethod = none) := by
  simp only [MProperty.create] at hp
  by_cases hg : gh = 0 <;> by_cases hs : sh = 0 <;> simp only [hg, hs, if_pos, if_neg,
    ne_eq, not_true_eq_false, not_false_eq_true, if_true, if_false, ite_true, ite_false] at hp
  · simp only [Option.some.injEq] at hp
    subst hp
    exact ⟨fun hc => absurd hg hc, fun _ => rfl, fun hc => absurd hs hc, fun _ => rfl⟩
  · cases hms : MMethod.create pc ("set_" ++ name) sh 1 sa with
    | none => rw [hms] at hp; exact absurd hp (by simp)
    | some msM =>
      rw [hms] at hp
      simp only [Option.some.injEq] at hp
      subst hp
      refine ⟨fun hc => absurd hg hc, fun _ => rfl, fun _ => ⟨msM, rfl, ?_⟩,
        fun hc => absurd hc hs⟩
      exact MMethod.create_name pc ("set_" ++ name) sh 1 sa msM hms
  · cases hmg : MMethod.create pc ("get_" ++ name) gh 1 ga with
    | none => rw [hmg] at hp; exact absurd hp (by simp)
    | some mgM =>
      rw [hmg] at hp
      simp only [Option.some.injEq] at hp
      subst hp
      refine ⟨fun _ => ⟨mgM, rfl, ?_⟩, fun hc => absurd hc hg, fun hc => absurd hs hc,
        fun _ => rfl⟩
      exact MMethod.create_name pc ("get_" ++ name) gh 1 ga mgM hmg
  · cases hmg : MMethod.create pc ("get_" ++ name) gh 1 ga with
    | none => rw [hmg] at hp; exact absurd hp (by simp)
    | some mgM =>
      rw [hmg] at hp
      cases hms : MMethod.create pc ("set_" ++ name) sh 1 sa with
      | none => rw [hms] at hp; exact absurd hp (by simp)
      | some msM =>
        rw [hms] at hp
        simp only [Option.some.injEq] at hp
        subst hp
        refine ⟨fun _ => ⟨mgM, rfl, ?_⟩, fun hc => absurd hc hg, fun _ => ⟨msM, rfl, ?_⟩,
          fun hc => absurd hc hs⟩
        · exact MMethod.create_name pc ("get_" ++ name) gh 1 ga mgM hmg
        · exact MMethod.create_name pc ("set_" ++ name) sh 1 sa msM hms

/-- C7 witness: the property descriptor (name "P", getter handle 13, null
    setter, public getter): non-null get-accessor named "get_P", null
    set-accessor. -/
theorem property_accessor_synthesis_witness :
    (∃ m, propFixture.getMethod = some m ∧ m.name = "get_" ++ "P") ∧
    propFixture.setMethod = none :=
  ⟨(property_accessor_synthesis 1 "P" 13 0 6 0 propFixture (by decide)).1 (by decide),
   (property_accessor_synthesis 1 "P" 13 0 6 0 propFixture (by decide)).2.2.2 rfl⟩

/-- C1 counterexample: when the describe call canonicalizes the queried
    handle (returns `classInfo.typeHandle = 2` for queried handle 1), the
    wrapper is registered under the canonical handle only, so a second
    `GetOrCreateClass(1)` misses the identity map and creates a second
    wrapper: the first call returns reference 0, the second returns
    reference 1 — not the identical object — and the store has grown to two
    wrappers. -/
theorem getOrCreateClass_canonicalization_counterexample :
    Option.map (fun r => r.1) (GetOrCreateClass canonGateway ClassRegistry.empty 1) =
      some (some 0) ∧
    (Option.bind (GetOrCreateClass canonGateway ClassRegistry.empty 1) fun r =>
      Option.map (fun r2 => r2.1) (GetOrCreateClass canonGateway r.2 1)) =
      some (some 1) ∧
    (Option.bind (GetOrCreateClass canonGateway ClassRegistry.empty 1) fun r =>
      Option.map (fun r2 => r2.2.store.length) (GetOrCreateClass canonGateway r.2 1)) =
      some 2 :=
  ⟨rfl, rfl, rfl⟩

/-- C1 (amended): for every non-null type handle H whose describe call
    returns the queried handle itself (no canonicalization,
    `classInfo.typeHandle = H`), once `GetOrCreateClass(H)` has returned a
    wrapper, calling it again returns the identical wrapper reference and
    leaves the registry unchanged: the second call hits the identity map and
    performs no creation. -/
theorem getOrCreateClass_idempotent (g : Gateway) (s : ClassRegistry) (H : Nat)
    (res : Option Nat) (s1 : ClassRegistry)
    (hH : H ≠ 0)
    (hcanon : (g.getManagedClassFromType H).1.typeHandle = H)
    (h1 : GetOrCreateClass g s H = some (res, s1)) :
    GetOrCreateClass g s1 H = some (res, s1) := by
  simp only [GetOrCreateClass] at h1 ⊢
  rw [if_neg hH] at h1 ⊢
  cases hl : s.classHandles.lookup H with
  | some ref =>
    rw [hl] at h1
    simp only [Option.some.injEq, Prod.mk.injEq] at h1
    obtain ⟨hres, hs⟩ := h1
    rw [← hs, hl, ← hres]
  | none =>
    rw [hl] at h1
    cases hm : MClass.create (s.assemblyHandles.lookup (g.getManagedClassFromType H).2)
        (g.getManagedClassFromType H).1.typeHandle (g.getManagedClassFromType H).1.name
        (g.getManagedClassFromType H).1.fullname (g.getManagedClassFromType H).1.namespace_
        (g.getManagedClassFromType H).1.typeAttributes
        (g.typeIsValueType (g.getManagedClassFromType H).1.typeHandle)
        (g.typeIsEnum (g.getManagedClassFromType H).1.typeHandle) with
    | none =>
      rw [hm] at h1
      exact absurd h1 (by simp)
    | some klass =>
      rw [hm] at h1
      simp only [Option.some.injEq, Prod.mk.injEq] at h1
      obtain ⟨hres, hs⟩ := h1
      have hlk : s1.classHandles.lookup H =
          some s.store.length := by
        rw [← hs]
        simp [List.lookup, hcanon]
      rw [hlk, ← hres]

/-- C1 witness (for the amended theorem): against a gateway with no
    canonicalization, the registry after resolving handle 1 resolves handle 1
    again to the same wrapper reference 0 with the registry unchanged. -/
theorem getOrCreateClass_idempotent_witness :
    GetOrCreateClass plainGateway plainRegistry1 1 = some (some 0, plainRegistry1) :=
  getOrCreateClass_idempotent plainGateway ClassRegistry.empty 1 (some 0) plainRegistry1
    (by decide) (by decide) (by decide)

/-- Helper: looking up in a collected weak table transforms the found entry
    value by the collection's clearing rule. -/
lemma lookup_collectTable (live : List Nat) (l : List (Nat × Nat × Option Nat)) (h : Nat) :
    (l.map (collectEntry live)).lookup h =
      Option.map (fun v => if v.1 ∈ live then v else (v.1, none)) (l.lookup h) := by
  induction l with
  | nil => rfl
  | cons e tl ih =>
    obtain ⟨k, o, t⟩ := e
    have hce : collectEntry live (k, o, t) = (k, o, if o ∈ live then t else none) := by
      unfold collectEntry
      by_cases hm : o ∈ live <;> simp [hm]
    simp only [List.map_cons, hce]
    by_cases hk : h = k
    · subst hk
      by_cases hm : o ∈ live <;> simp [List.lookup, hm]
    · have hbk : (h == k) = false := by simp [hk]
      simp [List.lookup, hbk, ih]

/-- Helper: a fresh weak handle satisfies the weak-handle invariant. -/
lemma weakInv_newWeak (s : GCHeapState) (obj : Nat) (hb : s.Bounded) :
    WeakHandleInv (s.NewWeak obj).1 obj (s.NewWeak obj).2 := by
  refine ⟨?_, ?_, some obj, ?_, Or.inl rfl⟩
  · intro e he
    simp only [GCHeapState.NewWeak, List.mem_cons] at he
    rcases he with he | he
    · subst he
      simp [GCHeapState.NewWeak]
    · have := hb e he
      simp only [GCHeapState.NewWeak]
      omega
  · simp [GCHeapState.NewWeak]
  · simp [GCHeapState.NewWeak, List.lookup]

/-- Helper: every heap event preserves the weak-handle invariant. -/
lemma weakInv_step (handle obj : Nat) (s s2 : GCHeapState)
    (hinv : WeakHandleInv handle obj s) (hstep : GCStep s s2) :
    WeakHandleInv handle obj s2 := by
  obtain ⟨hb, hle, t, hlk, hcase⟩ := hinv
  cases hstep with
  | markUnreachable o =>
    refine ⟨hb, hle, t, hlk, ?_⟩
    rcases hcase with hcase | ⟨ht, hdead⟩
    · exact Or.inl hcase
    · refine Or.inr ⟨ht, fun hmem => hdead ?_⟩
      simp only [GCHeapState.markUnreachable] at hmem
      exact List.mem_of_mem_filter hmem
  | collect =>
    refine ⟨?_, hle, ?_⟩
    · intro e he
      simp only [GCHeapState.collect, List.mem_map] at he
      obtain ⟨e0, he0, rfl⟩ := he
      have := hb e0 he0
      unfold collectEntry
      by_cases hm : e0.2.1 ∈ s.live <;> simp [hm, GCHeapState.collect, this]
    · by_cases hm : obj ∈ s.live
      · refine ⟨t, ?_, ?_⟩
        · simp only [GCHeapState.collect]
          rw [lookup_collectTable, hlk]
          simp [hm]
        · rcases hcase with hcase | ⟨ht, hdead⟩
          · exact Or.inl hcase
          · exact absurd hm hdead
      · refine ⟨none, ?_, Or.inr ⟨rfl, hm⟩⟩
        simp only [GCHeapState.collect]
        rw [lookup_collectTable, hlk]
        simp [hm]
  | newWeak o ho =>
    have hne : handle ≠ s.nextHandle + 1 := by omega
    refine ⟨?_, by simp only [GCHeapState.NewWeak]; omega, t, ?_, hcase⟩
    · intro e he
      simp only [GCHeapState.NewWeak, List.mem_cons] at he
      rcases he with he | he
      · subst he
        simp [GCHeapState.NewWeak]
      · have := hb e he
        simp only [GCHeapState.NewWeak]
        omega
    · have hbk : (handle == s.nextHandle + 1) = false := by simp [hne]
      simp only [GCHeapState.NewWeak, List.lookup, hbk]
      exact hlk

/-- Helper: the weak-handle invariant holds after any number of heap events. -/
lemma weakInv_reaches (handle obj : Nat) (s s2 : GCHeapState)
    (hinv : WeakHandleInv handle obj s) (hr : GCReaches s s2) :
    WeakHandleInv handle obj s2 := by
  induction hr with
  | refl => exact hinv
  | tail _ hstep ih => exact weakInv_step handle obj _ _ ih hstep

/-- C9: for a weak GC handle created on a live object, resolving the handle
    immediately after creation yields the (non-null) referent; after any
    sequence of heap events — objects becoming unreachable, collections,
    further handle creations — resolution never crashes, and it yields null
    only when the referent has become unreachable. -/
theorem weak_gchandle_lifecycle (s : GCHeapState) (obj : Nat)
    (hb : s.Bounded) (_hlive : obj ∈ s.live) :
    (s.NewWeak obj).2.GetTarget (s.NewWeak obj).1 = GCResult.ok (some obj) ∧
    (∀ s2, GCReaches (s.NewWeak obj).2 s2 →
      s2.GetTarget (s.NewWeak obj).1 ≠ GCResult.crash ∧
      (s2.GetTarget (s.NewWeak obj).1 = GCResult.ok none → obj ∉ s2.live)) := by
  have hinv0 := weakInv_newWeak s obj hb
  constructor
  · simp [GCHeapState.GetTarget, GCHeapState.NewWeak, List.lookup]
  · intro s2 hr
    obtain ⟨hb2, hle2, t, hlk, hcase⟩ := weakInv_reaches _ _ _ _ hinv0 hr
    constructor
    · simp [GCHeapState.GetTarget, hlk]
    · intro hnull
      rw [GCHeapState.GetTarget, hlk] at hnull
      simp only [GCResult.ok.injEq] at hnull
      rcases hcase with hcase | ⟨ht, hdead⟩
      · rw [hcase] at hnull
        exact absurd hnull (by simp)
      · exact hdead

/-- C9 witness: on the heap with one live object 5 and an empty weak table,
    a freshly created weak handle on object 5 resolves to object 5. -/
theorem weak_gchandle_lifecycle_witness :
    (GCHeapState.NewWeak { nextHandle := 0, weakTable := [], live := [5] } 5).2.GetTarget
      (GCHeapState.NewWeak { nextHandle := 0, weakTable := [], live := [5] } 5).1 =
      GCResult.ok (some 5) :=
  (weak_gchandle_lifecycle { nextHandle := 0, weakTable := [], live := [5] } 5
    (fun e he => absurd he (List.not_mem_nil e)) (by decide)).1

end FlaxDotNet
